import Mathlib

/-!
Shallow embedding of the Syndesi protocol core (frame codec, device
identifier chain, frame dispatcher, wire buffer) for checking the
natural-language specification against the C++ sources.

Each definition is translated from a named source location:
  - src/include/frame.h          (sizes, NetworkHeader bitfield, ErrorCode enum)
  - src/Cpp/arduino/syndesi/sdid.cpp  (SyndesiID: append, reroutes,
    getTotalAdressingSize, buildAddressingBuffer, operator==, setIPPort)
  - src/src/frame.cpp and src/Cpp/src/frame.cpp (Frame constructors, parse)
  - src/src/framemanager.cpp     (interpreter attach, indication, confirm)
  - src/src/network.cpp          (request, controllerDataAvailable)
  - src/src/buffer.cpp and src/include/buffer.h (Buffer sub-view logic)
  - src/Cpp/include/settings.h   (Settings)

Structures that only exist in headers missing from the snapshot
(`sdid.h`, `linkedlist.h`, the `hton`/`ntoh` helpers) are modelled from
the spec, and each such definition says so in its doc comment.
-/

set_option autoImplicit false

namespace Syndesi

/-! ## Sizes and the network header (src/include/frame.h) -/

/-- `Frame::networkHeader_size` — the single network-header byte. -/
def networkHeader_size : Nat := 1

/-- `Frame::payloadLength_size` — `sizeof(uint16_t)`. -/
def payloadLength_size : Nat := 2

/-- `Frame::errorCode_size`. -/
def errorCode_size : Nat := 2

/-- `Frame::addressingHeader_size` — one header byte per address segment. -/
def addressingHeader_size : Nat := 1

/-- `Frame::header_size = networkHeader_size + payloadLength_size` (= 3). -/
def header_size : Nat := networkHeader_size + payloadLength_size

/-- `Frame::NetworkHeader` bitfield: bit0 `routing`, bit1 `follow`,
bit2 `error`, bits 3-7 reserved (src/include/frame.h). -/
structure NetworkHeader where
  routing : Bool
  follow : Bool
  error : Bool
  reserved : Nat
  deriving DecidableEq, Repr

/-- The packed byte of a `NetworkHeader` (`NetworkHeader::value`),
with the bit positions declared by the bitfield in src/include/frame.h. -/
def NetworkHeader.value (h : NetworkHeader) : Nat :=
  (if h.routing then 1 else 0) + 2 * (if h.follow then 1 else 0) +
    4 * (if h.error then 1 else 0) + 8 * (h.reserved % 32)

/-- Decode a received byte into the `NetworkHeader` bitfield
(`networkHeader.value = headerBuffer[0]`). -/
def NetworkHeader.ofValue (v : Nat) : NetworkHeader :=
  { routing := v % 2 == 1
    follow := v / 2 % 2 == 1
    error := v / 4 % 2 == 1
    reserved := v / 8 % 32 }

/-- `Frame::ErrorCode` enum (src/include/frame.h): `NO_ERROR = 0`,
`NO_INTERPETER = 1` (spelling as in the source), `INVALID_PAYLOAD = 2`. -/
inductive ErrorCode where
  | NO_ERROR
  | NO_INTERPETER
  | INVALID_PAYLOAD
  deriving DecidableEq, Repr

/-- Numeric value of each `ErrorCode` enumerator. -/
def ErrorCode.toNat : ErrorCode → Nat
  | .NO_ERROR => 0
  | .NO_INTERPETER => 1
  | .INVALID_PAYLOAD => 2

/-- Modelled from the spec: the `hton` conversion helper for 2-byte fields is
declared outside the snapshot; §4.3 fixes the wire order of all numeric
fields to big-endian, so a 16-bit value is written high byte first. -/
def hton16 (v : Nat) : List Nat := [v / 256 % 256, v % 256]

/-- Modelled from the spec: inverse of `hton16`, reading a 2-byte
big-endian field from the front of a byte list. -/
def ntoh16 (bytes : List Nat) : Nat := bytes.getD 0 0 * 256 + bytes.getD 1 0

/-! ## Device identifier (src/Cpp/arduino/syndesi/sdid.cpp)

The class declaration lives in `sdid.h`, which is missing from the
snapshot; the structure below is reconstructed from the member accesses
in sdid.cpp plus §3/§4.2 of the spec. -/

/-- `SyndesiID::address_type_t`. Modelled from the spec: the enum itself is
declared in the missing sdid.h; §3 gives IPv4, IPv6 and a reserved/other
bucket (the `default:` branches in sdid.cpp and network.cpp). -/
inductive AddressType where
  | IPV4
  | IPV6
  | OTHER
  deriving DecidableEq, Repr

/-- `SyndesiID::addressSize`: 4 bytes for IPv4, 16 for IPv6, 0 for the
`default:` branch (sdid.cpp lines 151-160). -/
def addressSize : AddressType → Nat
  | .IPV4 => 4
  | .IPV6 => 16
  | .OTHER => 0

/-- Per-segment address header: address type, `follow` (more-segments)
flag and reserved bits, packed into one wire byte. -/
structure IDHeader where
  address_type : AddressType
  follow : Bool
  reserved : Nat
  deriving DecidableEq, Repr

/-- Modelled from the spec: numeric code of each address type (the enum
values are in the missing sdid.h; only the byte count matters here). -/
def AddressType.code : AddressType → Nat
  | .IPV4 => 0
  | .IPV6 => 1
  | .OTHER => 2

/-- Modelled from the spec: the packed per-segment header byte —
§6 places the type in the upper bits and the more-segments flag in bit 0. -/
def IDHeader.byte (h : IDHeader) : Nat :=
  h.address_type.code * 2 + (if h.follow then 1 else 0)

/-- One chained node of a `SyndesiID` linked list: its header, its raw
address bytes (`descriptor`) and its `is_next` flag (true for a
forwarding segment that is physically serialized). -/
structure IDSegment where
  header : IDHeader
  descriptor : List Nat
  is_next : Bool
  deriving DecidableEq, Repr

/-- `SyndesiID`: the head node (header, descriptor bytes, `is_next`
flag, application port `_port`) followed by the chain of `next` nodes.
The C++ linked list of `SyndesiID*` nodes is flattened into a `List` of
segments. -/
structure SyndesiID where
  header : IDHeader
  descriptor : List Nat
  is_next : Bool
  port : Nat
  next : List IDSegment
  deriving DecidableEq, Repr

/-- The node itself followed by its chained nodes, in linked-list order. -/
def SyndesiID.segments (id : SyndesiID) : List IDSegment :=
  ⟨id.header, id.descriptor, id.is_next⟩ :: id.next

/-- `SyndesiID::setIPPort` (sdid.cpp line 112): overwrite `_port`. -/
def SyndesiID.setIPPort (id : SyndesiID) (port : Nat) : SyndesiID :=
  { id with port := port }

/-- `SyndesiID::append` (sdid.cpp lines 114-122): walk to the tail and
attach a node built by `SyndesiID(unsigned char*, address_type_t)`, which
copies `addressSize(type)` bytes and sets `follow = false`.
Modelled from the spec: that constructor does not touch `is_next`, whose
default lives in the missing sdid.h; §4.2 serializes every appended
forwarding segment, so appended nodes carry `is_next = true`. -/
def SyndesiID.append (id : SyndesiID) (buffer : List Nat) (t : AddressType) : SyndesiID :=
  { id with next := id.next ++ [⟨⟨t, false, 0⟩, buffer.take (addressSize t), true⟩] }

/-- Per-node recursion of `SyndesiID::reroutes` (sdid.cpp lines 143-149):
`count` starts at 0, and the only statement touching it is
`if (next) count += next->reroutes();` — no node ever adds its own 1,
so every node contributes exactly the (zero) count of its tail. -/
def reroutesSeg : List IDSegment → Nat
  | [] => 0
  | _ :: rest => reroutesSeg rest

/-- `SyndesiID::reroutes` (sdid.cpp lines 143-149). -/
def SyndesiID.reroutes (id : SyndesiID) : Nat :=
  reroutesSeg id.segments

/-- Per-node recursion of `SyndesiID::getTotalAdressingSize` (sdid.cpp
lines 162-167): `size` starts at 0; the statement
`if (is_next) addressSize(header.fields.address_type);` evaluates the
size and discards it (no assignment), and
`if (next) size += next->getTotalAdressingSize();` adds the tail's
(zero) total, so every node contributes nothing. -/
def totalAdressingSizeSeg : List IDSegment → Nat
  | [] => 0
  | _ :: rest => totalAdressingSizeSeg rest

/-- `SyndesiID::getTotalAdressingSize` (sdid.cpp lines 162-167). -/
def SyndesiID.getTotalAdressingSize (id : SyndesiID) : Nat :=
  totalAdressingSizeSeg id.segments

/-- Per-node recursion of `SyndesiID::buildAddressingBuffer` (sdid.cpp
lines 173-191): a node with `is_next` set writes its packed header byte
(`hton` of the 1-byte header) followed by its raw descriptor bytes and
recurses into a sub-buffer placed right after them; a node with
`is_next` clear writes nothing and recurses into its tail. The bytes
written through the chained sub-buffers are concatenated in order. -/
def buildAddressingSeg : List IDSegment → List Nat
  | [] => []
  | s :: rest =>
    if s.is_next then (s.header.byte :: s.descriptor) ++ buildAddressingSeg rest
    else buildAddressingSeg rest

/-- `SyndesiID::buildAddressingBuffer` (sdid.cpp lines 173-191), as the
list of bytes it writes into the destination buffer. -/
def SyndesiID.buildAddressingBuffer (id : SyndesiID) : List Nat :=
  buildAddressingSeg id.segments

/-- `SyndesiID::operator==` (sdid.cpp lines 198-202): `memcmp` of the
descriptor bytes and comparison of `_port`, on the first segment only.
Modelled from the spec for the union layout: §4.2 defines equality as
address-bytes-equal AND port-equal on the outermost identifier. -/
def SyndesiID.beq (a b : SyndesiID) : Bool :=
  a.descriptor == b.descriptor && a.port == b.port

/-! ## Settings (src/Cpp/include/settings.h) -/

/-- `Settings::default_syndesi_port` (src/Cpp/include/settings.h). -/
def default_syndesi_port : Nat := 2608

/-- `Settings`: the process-wide IP port setting. -/
structure Settings where
  IPPort : Nat := default_syndesi_port
  deriving DecidableEq, Repr

/-- `Settings::getIPPort`. -/
def Settings.getIPPort (s : Settings) : Nat := s.IPPort

/-! ## Frame (src/src/frame.cpp and src/Cpp/src/frame.cpp) -/

/-- `IPayload`: the payload contract consumed by the core — `length()`
returns the serialized size and `build(buffer)` writes exactly those
bytes (payload variants are generated code outside the core). A payload
is represented by the byte list its `build` emits. -/
structure IPayload where
  bytes : List Nat
  deriving DecidableEq, Repr

/-- `IPayload::length()`. -/
def IPayload.length (p : IPayload) : Nat := p.bytes.length

/-- `Frame`: network header, the backing byte buffer, the
`payloadLength` member (0 until assigned) and the associated identifier
(src/include/frame.h). -/
structure Frame where
  networkHeader : NetworkHeader
  buffer : List Nat
  payloadLength : Nat
  id : SyndesiID
  deriving DecidableEq, Repr

/-- Overwrite `src.length` bytes of `dest` starting at position `pos` —
the raw-pointer writes of the C++ constructors (a write running past the
end of the allocation extends the list here; in the source it runs past
the `malloc` block). -/
def writeAt (dest : List Nat) (pos : Nat) (src : List Nat) : List Nat :=
  dest.take pos ++ src ++ dest.drop (pos + src.length)

/-- `Frame::Frame(SyndesiID&, ErrorCode)` (src/src/frame.cpp lines 5-19,
identical in src/Cpp/src/frame.cpp lines 5-18): allocate
`networkHeader_size + errorCode_size` bytes, `hton` the 2-byte error
code to offset `networkHeader_size`, set `error = true`,
`routing = reroutes() > 0`, `follow = false`, and store the packed
header in byte 0. The final buffer contents are listed in byte order. -/
def Frame.mkError (id : SyndesiID) (errorCode : ErrorCode) : Frame :=
  let networkHeader : NetworkHeader :=
    { routing := decide (0 < id.reroutes), follow := false, error := true, reserved := 0 }
  { networkHeader := networkHeader
    buffer := networkHeader.value :: hton16 errorCode.toNat
    payloadLength := 0
    id := id }

/-- `Frame::Frame(SyndesiID&, IPayload&)` (src/src/frame.cpp lines
21-55): allocate `payload.length() + header_size +
getTotalAdressingSize()` bytes, write the packed header at 0, the
2-byte length field `addressing_size + payload.length()` at 1, the
addressing chain at `header_size`, and the payload at
`header_size + addressing_size` (the uninitialized `malloc` contents are
modelled as zeros). -/
def Frame.mkPayload (id : SyndesiID) (payload : IPayload) : Frame :=
  let networkHeader : NetworkHeader :=
    { routing := decide (0 < id.reroutes), follow := false, error := false, reserved := 0 }
  let addressing_size := id.getTotalAdressingSize
  let payloadLength := addressing_size + payload.length
  let base := List.replicate (payload.length + header_size + id.getTotalAdressingSize) 0
  let withHeader := writeAt base 0 [networkHeader.value]
  let withLength := writeAt withHeader networkHeader_size (hton16 payloadLength)
  let withChain := writeAt withLength header_size id.buildAddressingBuffer
  let withPayload := writeAt withChain (header_size + addressing_size) payload.bytes
  { networkHeader := networkHeader
    buffer := withPayload
    payloadLength := payloadLength
    id := id }

/-- `Frame::Frame(SAP::IController&, SyndesiID&)` (src/src/frame.cpp
lines 57-94). The controller is a blocking exact-count byte source,
modelled as the list of bytes it will deliver; the result pairs the
constructed frame with the bytes left unread. The constructor reads
exactly `header_size` bytes, decodes byte 0 as the network header, and:
with the error bit set keeps just those header bytes; otherwise it
applies `ntoh` to `payloadLength_size` bytes starting at `headerBuffer`
(offset 0) to obtain `payloadLength`, allocates
`header_size + payloadLength` bytes (the header region is left
uninitialized by the source — modelled as zeros, since only the payload
is read into offset `header_size`), and reads that many more bytes. -/
def Frame.fromController_src (stream : List Nat) (id : SyndesiID) : Frame × List Nat :=
  let headerBuffer := stream.take header_size
  let afterHeader := stream.drop header_size
  let networkHeader := NetworkHeader.ofValue (headerBuffer.getD 0 0)
  if networkHeader.error then
    ({ networkHeader := networkHeader, buffer := headerBuffer, payloadLength := 0, id := id },
      afterHeader)
  else
    let payloadLength := ntoh16 (headerBuffer.take payloadLength_size)
    ({ networkHeader := networkHeader
       buffer := List.replicate header_size 0 ++ afterHeader.take payloadLength
       payloadLength := payloadLength
       id := id },
      afterHeader.drop payloadLength)

/-- `Frame::Frame(SAP::IController&, SyndesiID&, size_t)`
(src/Cpp/src/frame.cpp lines 52-91): same shape as
`Frame.fromController_src`, except that `payloadLength` is decoded from
the bytes at `headerBuffer + networkHeader_size` (bytes 1-2) and the
header bytes are copied into the front of the frame buffer before the
payload is read behind them. -/
def Frame.fromController_cpp (stream : List Nat) (id : SyndesiID) : Frame × List Nat :=
  let headerBuffer := stream.take header_size
  let afterHeader := stream.drop header_size
  let networkHeader := NetworkHeader.ofValue (headerBuffer.getD 0 0)
  if networkHeader.error then
    ({ networkHeader := networkHeader, buffer := headerBuffer, payloadLength := 0, id := id },
      afterHeader)
  else
    let payloadLength := ntoh16 ((headerBuffer.drop networkHeader_size).take payloadLength_size)
    ({ networkHeader := networkHeader
       buffer := headerBuffer ++ afterHeader.take payloadLength
       payloadLength := payloadLength
       id := id },
      afterHeader.drop payloadLength)

/-- `Frame::getPayloadBuffer` (src/Cpp/src/frame.cpp lines 93-102, and
the offset views of src/src/frame.cpp lines 96-109): skip only the
network-header byte for an error frame, the whole header otherwise. -/
def Frame.getPayloadBuffer (f : Frame) : List Nat :=
  if f.networkHeader.error then f.buffer.drop networkHeader_size
  else f.buffer.drop header_size

/-- `Frame::getPayloadLength` (src/Cpp/src/frame.cpp line 104). -/
def Frame.getPayloadLength (f : Frame) : Nat := f.payloadLength

/-! ## Frame manager (src/src/framemanager.cpp) -/

/-- `IInterpreter::Type` (src/include/iinterpreter.h). -/
inductive InterpType where
  | ERROR
  | BCS
  | OTHER
  deriving DecidableEq, Repr

/-- `IInterpreter` (src/include/iinterpreter.h): type tag plus the two
virtual parse entry points, called by src/src/framemanager.cpp as
`parseRequest(frame.getPayloadBuffer(), frame.getPayloadLength())` and
`parseReply(...)`. A fresh interpreter's `next` pointer is null; the
chain reachable from `first_interpreter` is modelled as a `List`. -/
structure IInterpreter where
  itype : InterpType
  parseRequest : List Nat → Nat → Option IPayload
  parseReply : List Nat → Nat → Bool

/-- `FrameManager::operator<<` (src/src/framemanager.cpp lines 14-23).
The cursor `interpreter` is initialized to `&first_interpreter` and is
never re-seated; the loop body `*interpreter = (*interpreter)->next;`
therefore overwrites `first_interpreter` with its successor until it is
null, and the final `*interpreter = &new_interpreter;` stores the new
node (whose own `next` is null) into `first_interpreter`. -/
def FrameManager.attach : List IInterpreter → IInterpreter → List IInterpreter
  | [], newInterp => [newInterp]
  | _ :: rest, newInterp => FrameManager.attach rest newInterp

/-- Loop of `FrameManager::indication` over the interpreter chain
(src/src/framemanager.cpp lines 43-58). The for-update is the same
destructive `*interpreter = (*interpreter)->next`, so the scan advances
`first_interpreter` itself; `break` on a non-null payload leaves
`first_interpreter` at the claiming node. Returns the claimed payload
(if any), the chain left in `first_interpreter`, and — as
instrumentation for the theorems — the types of the interpreters whose
`parseRequest` was actually invoked, in call order. -/
def indicationLoop (frame : Frame) :
    List IInterpreter → Option IPayload × List IInterpreter × List InterpType
  | [] => (none, [], [])
  | i :: rest =>
    if i.itype == InterpType.ERROR then
      indicationLoop frame rest
    else
      match i.parseRequest frame.getPayloadBuffer frame.getPayloadLength with
      | some payload => (some payload, i :: rest, [i.itype])
      | none =>
        let r := indicationLoop frame rest
        (r.1, r.2.1, i.itype :: r.2.2)

/-- Outcome of `FrameManager::indication`: the frames handed to
`network->response(...)`, the chain left in `first_interpreter`, and the
instrumented list of `parseRequest` invocations. -/
structure IndicationResult where
  responses : List Frame
  first_interpreter : List IInterpreter
  invoked : List InterpType

/-- `FrameManager::indication` (src/src/framemanager.cpp lines 35-69):
an error-flagged frame is answered with an `INVALID_PAYLOAD` error frame
without consulting any interpreter; otherwise the chain is scanned, the
first non-null `parseRequest` result is wrapped in a payload frame, and
if none claims the request a `NO_INTERPETER` error frame is built. The
(always non-null) reply is passed to `network->response`. -/
def FrameManager.indication (chain : List IInterpreter) (frame : Frame) : IndicationResult :=
  if frame.networkHeader.error then
    { responses := [Frame.mkError frame.id ErrorCode.INVALID_PAYLOAD]
      first_interpreter := chain
      invoked := [] }
  else
    let scan := indicationLoop frame chain
    match scan.1 with
    | some payload =>
      { responses := [Frame.mkPayload frame.id payload]
        first_interpreter := scan.2.1
        invoked := scan.2.2 }
    | none =>
      { responses := [Frame.mkError frame.id ErrorCode.NO_INTERPETER]
        first_interpreter := scan.2.1
        invoked := scan.2.2 }

/-! ## Network dispatcher (src/src/network.cpp)

`devicesList` is a `LinkedList<SyndesiID>` whose class lives in
`linkedlist.h`, missing from the snapshot. Modelled from the spec: §3
makes the pending-reply list an ordered FIFO (`Append` at the tail) with
a cursor — `moveToStart()` places the cursor on the first entry,
`getCurrent()` reads the entry under the cursor, `next()` advances to
the following entry and returns false when the cursor is already on the
last one, `DeleteCurrent()` removes the entry under the cursor. The list
is carried as the item list plus an explicit cursor index. -/

/-- Classification of an inbound frame by
`Network::controllerDataAvailable`: `Confirm` drives
`_frameManager->confirm`, `Indication` drives
`_frameManager->indication`. -/
inductive Classification where
  | Confirm
  | Indication
  deriving DecidableEq, Repr

/-- Modelled from the spec (missing linkedlist.h): fallback value for
`getCurrent()` outside the list — never reached on the paths below,
where the cursor stays in bounds. -/
def SyndesiID.dflt : SyndesiID := ⟨⟨AddressType.IPV4, false, 0⟩, [], false, 0, []⟩

/-- The `while (devicesList.getCurrent() == deviceID)` loop of
`Network::controllerDataAvailable` (src/src/network.cpp lines 101-106):
as long as the entry under the cursor compares equal to `deviceID`
(by `SyndesiID::operator==`), try to advance; if `next()` fails (the
cursor is on the last entry) the loop breaks with `deviceFound = false`.
Returns the final cursor position and `deviceFound`. -/
def pendingScan (deviceID : SyndesiID) : List SyndesiID → Nat → Nat × Bool
  | [], cursor => (cursor, false)
  | [current], cursor =>
    if SyndesiID.beq current deviceID then (cursor, false) else (cursor, true)
  | current :: following :: rest, cursor =>
    if SyndesiID.beq current deviceID then
      pendingScan deviceID (following :: rest) (cursor + 1)
    else (cursor, true)

/-- `Network::controllerDataAvailable` (src/src/network.cpp lines
94-121, identical in src/Cpp/src/network.cpp lines 66-93), restricted to
its classification logic: move the cursor to the start, run the scan
when the list is non-empty (otherwise `deviceFound = false`), and —
when `deviceFound` — `DeleteCurrent()` and classify as Confirm, else
classify as Indication. Returns the classification and the pending list
afterwards. -/
def Network.controllerDataAvailable (devicesList : List SyndesiID) (deviceID : SyndesiID) :
    Classification × List SyndesiID :=
  if 0 < devicesList.length then
    match pendingScan deviceID devicesList 0 with
    | (cursor, true) => (Classification.Confirm, devicesList.eraseIdx cursor)
    | (_, false) => (Classification.Indication, devicesList)
  else (Classification.Indication, devicesList)

/-- Outcome of `Network::request`: the returned flag, the
`(destination, bytes)` pairs passed to `networkIPController->write`, the
pending list afterwards, and the frame's identifier afterwards (the
source mutates it in place). -/
structure RequestResult where
  output : Bool
  written : List (SyndesiID × List Nat)
  devicesList : List SyndesiID
  frameID : SyndesiID

/-- `Network::request` (src/src/network.cpp lines 25-54): with an IP
controller registered and an IPv4/IPv6 destination, first
`frame.getID().setIPPort(settings.getIPPort())`, then write the frame
bytes to the controller; the send succeeds iff the controller reports
`frame.buffer->length()` bytes written, and on success the (mutated)
destination identifier is appended to `devicesList`. Any other address
type only logs and fails. The controller is modelled by its `write`
function, returning the byte count it accepted. -/
def Network.request (settings : Settings) (hasIPController : Bool)
    (write : SyndesiID → List Nat → Nat) (devicesList : List SyndesiID)
    (frame : Frame) : RequestResult :=
  if hasIPController then
    match frame.id.header.address_type with
    | AddressType.IPV4 | AddressType.IPV6 =>
      let sentID := frame.id.setIPPort settings.getIPPort
      let nWritten := write sentID frame.buffer
      let output := nWritten == frame.buffer.length
      { output := output
        written := [(sentID, frame.buffer)]
        devicesList := if output then devicesList ++ [sentID] else devicesList
        frameID := sentID }
    | AddressType.OTHER =>
      { output := false, written := [], devicesList := devicesList, frameID := frame.id }
  else
    { output := false, written := [], devicesList := devicesList, frameID := frame.id }

/-! ## Wire buffer (src/src/buffer.cpp and src/include/buffer.h)

The snapshot carries two divergent Buffer implementations; both are
embedded. Fields of both variants live in one structure: `_data` (none
for a null pointer), `_length`, `_offset`, `_clipLength`, the
`isparent` flag of src/src/buffer.cpp, the `external`/`ownership` flags
and `_total_offset` of src/include/buffer.h. -/

/-- Buffer state shared by both implementations. -/
structure Buffer where
  data : Option (List Nat)
  bLength : Nat
  bOffset : Nat
  clipLength : Nat
  totalOffset : Nat
  isparent : Bool
  external : Bool
  ownership : Bool
  deriving DecidableEq, Repr

/-- A default-constructed `Buffer`: null data, all counters zero
(`isparent` defaults to true in src/Cpp/include/buffer.h, `external` and
`ownership` to false in src/include/buffer.h). -/
def Buffer.empty : Buffer := ⟨none, 0, 0, 0, 0, true, false, false⟩

/-- `Buffer::length` (src/src/buffer.cpp lines 77-89): 0 when the offset
passed the underlying length, otherwise `_length - _offset` clipped by
`_clipLength` — the clip is applied unconditionally
(`if (_clipLength < len) len = _clipLength;`). -/
def Buffer.length_cpp (b : Buffer) : Nat :=
  if b.bLength < b.bOffset then 0
  else min (b.bLength - b.bOffset) b.clipLength

/-- `Buffer::allocate` (src/src/buffer.cpp lines 22-35), with the
allocation succeeding: fresh zeroed storage, `_offset = 0`,
`_clipLength = _length`, owning. -/
def Buffer.allocate_cpp (b : Buffer) (length : Nat) : Buffer :=
  { b with data := some (List.replicate length 0), bLength := length,
           bOffset := 0, clipLength := length, isparent := true }

/-- `Buffer::fromParent` (src/src/buffer.cpp lines 47-58): mark as
non-owning; when `offset > parent->length()` nothing else happens (the
guard's body is empty — the silent no-op flagged by the spec), otherwise
share the parent's data and record `_offset`, `_clipLength`, and
`_length = parent->length()`. -/
def Buffer.fromParent_cpp (b parent : Buffer) (offset length : Nat) : Buffer :=
  let b := { b with isparent := false }
  if parent.length_cpp < offset then b
  else { b with data := parent.data, bOffset := offset, clipLength := length,
                bLength := parent.length_cpp }

/-- The sub-view constructor `Buffer(Buffer* parent, size_t offset,
size_t length = 0)` (src/Cpp/include/buffer.h lines 60-62) applied to a
default-constructed buffer, with the src/src/buffer.cpp `fromParent`. -/
def Buffer.subView_cpp (parent : Buffer) (offset length : Nat) : Buffer :=
  Buffer.fromParent_cpp Buffer.empty parent offset length

/-- `Buffer::length` (src/include/buffer.h lines 159-171): same shape,
but the clip only applies when `_clipLength > 0`
(`if (_clipLength > 0 && _clipLength < len)`). -/
def Buffer.length_h (b : Buffer) : Nat :=
  if b.bLength < b.bOffset then 0
  else
    if 0 < b.clipLength ∧ b.clipLength < b.bLength - b.bOffset then b.clipLength
    else b.bLength - b.bOffset

/-- `Buffer::allocate` (src/include/buffer.h lines 77-88), allocation
succeeding: sets only `_data` and `_length`. -/
def Buffer.allocate_h (b : Buffer) (length : Nat) : Buffer :=
  { b with data := some (List.replicate length 0), bLength := length }

/-- `Buffer::fromParent` (src/include/buffer.h lines 106-117): sets
`external`/`ownership`, and — the `offset > parent->length()` guard
having an empty body — unconditionally records `_total_offset`, shares
the parent's data and stores `_offset` and `_clipLength`; the child's
`_length` is never assigned. -/
def Buffer.fromParent_h (b parent : Buffer) (offset length : Nat) : Buffer :=
  { b with external := true, ownership := false,
           totalOffset := parent.totalOffset + offset,
           data := parent.data, bOffset := offset, clipLength := length }

/-- `Buffer::offset(offset, length = 0)` (src/include/buffer.h lines
153-157): `Buffer buf; buf.fromParent(this, offset, length); return
buf;` — note the sub-view starts from a default-constructed buffer. -/
def Buffer.offsetView_h (parent : Buffer) (offset length : Nat) : Buffer :=
  Buffer.fromParent_h Buffer.empty parent offset length

/-! ## Concrete fixtures used by the theorems -/

/-- An IPv4 identifier 10.0.0.1:2608. -/
def idA : SyndesiID := ⟨⟨AddressType.IPV4, false, 0⟩, [10, 0, 0, 1], false, 2608, []⟩

/-- An IPv4 identifier 10.0.0.2:2608 (differs from `idA` in its bytes). -/
def idB : SyndesiID := ⟨⟨AddressType.IPV4, false, 0⟩, [10, 0, 0, 2], false, 2608, []⟩

/-- An IPv4 identifier 10.1.2.3 with parsed port 9999. -/
def idPort9999 : SyndesiID := ⟨⟨AddressType.IPV4, false, 0⟩, [10, 1, 2, 3], false, 9999, []⟩

/-- 127.0.0.1:2608 extended by one appended IPv4 forwarding segment. -/
def idOneHop : SyndesiID :=
  SyndesiID.append ⟨⟨AddressType.IPV4, false, 0⟩, [127, 0, 0, 1], false, 2608, []⟩
    [192, 168, 1, 1] AddressType.IPV4

/-- A non-error interpreter that claims nothing. -/
def interpOne : IInterpreter :=
  ⟨InterpType.OTHER, fun _ _ => none, fun _ _ => false⟩

/-- A second non-error interpreter that claims nothing. -/
def interpTwo : IInterpreter :=
  ⟨InterpType.BCS, fun _ _ => none, fun _ _ => false⟩

/-- An `ERROR`-kind interpreter (cf. src/include/interpreters/error.h:
its `parseRequest` always returns null, its `parseReply` returns true). -/
def interpErr : IInterpreter :=
  ⟨InterpType.ERROR, fun _ _ => none, fun _ _ => true⟩

/-- A non-error inbound frame (a request). -/
def frameReq : Frame := Frame.mkPayload idA ⟨[1, 2, 3]⟩

/-- A frame with the error flag set. -/
def frameErrFlag : Frame := Frame.mkError idA ErrorCode.NO_ERROR

/-! ## Helper lemmas on the indication loop -/

/-- When every attached interpreter's `parseRequest` returns null on the
frame's payload, the indication scan produces no payload. -/
theorem indicationLoop_fst_none (frame : Frame) (chain : List IInterpreter)
    (h : ∀ i ∈ chain,
      i.parseRequest frame.getPayloadBuffer frame.getPayloadLength = none) :
    (indicationLoop frame chain).1 = none := by
  induction chain with
  | nil => rfl
  | cons i rest ih =>
    have hi := h i (List.mem_cons_self i rest)
    have hrest : ∀ j ∈ rest,
        j.parseRequest frame.getPayloadBuffer frame.getPayloadLength = none :=
      fun j hj => h j (List.mem_cons_of_mem i hj)
    unfold indicationLoop
    by_cases ht : i.itype == InterpType.ERROR
    · simp only [ht, if_true]
      exact ih hrest
    · simp only [ht, if_false, hi]
      exact ih hrest

/-- The indication scan never invokes `parseRequest` of an `ERROR`-kind
interpreter. -/
theorem indicationLoop_error_not_invoked (frame : Frame) (chain : List IInterpreter) :
    InterpType.ERROR ∉ (indicationLoop frame chain).2.2 := by
  induction chain with
  | nil => simp [indicationLoop]
  | cons i rest ih =>
    unfold indicationLoop
    by_cases ht : i.itype == InterpType.ERROR
    · simp only [ht, if_true]
      exact ih
    · simp only [ht, if_false]
      have hne : InterpType.ERROR ≠ i.itype := by
        intro hcontra
        rw [← hcontra] at ht
        simp at ht
      cases hp : i.parseRequest frame.getPayloadBuffer frame.getPayloadLength with
      | some p => simpa using fun hcontra => hne hcontra
      | none =>
        intro hcontra
        rcases List.mem_cons.mp hcontra with h1 | h1
        · exact hne h1
        · exact ih h1

end Syndesi

open Syndesi

/-! ## Claim theorems -/

/-- C1. Refutation at the spec's own example: with pending list
`[idA, idB]` and an inbound frame from `idB` (which equals the entry
`idB` and not `idA` under §4.2 equality), the dispatcher does classify
the frame as Confirm, but it deletes the first NON-matching entry: the
scan loop advances while the current entry EQUALS the source identifier
and stops at the first mismatch, so `idA` is removed and the list
afterwards is `[idB]`, not `[idA]` as the claim states. -/
theorem c1_pending_list_removes_nonmatching_head :
    SyndesiID.beq idB idB = true ∧
    SyndesiID.beq idA idB = false ∧
    Network.controllerDataAvailable [idA, idB] idB = (Classification.Confirm, [idB]) ∧
    Network.controllerDataAvailable [idA, idB] idB ≠ (Classification.Confirm, [idA]) := by
  refine ⟨rfl, rfl, rfl, by decide⟩

/-- C2. Refutation: attaching `interpOne` and then `interpTwo` to an
empty frame manager leaves a chain holding only `interpTwo` — the
attach loop overwrites `first_interpreter` while searching for the tail,
so every previously attached interpreter is lost, contradicting the
claim that the chain afterwards is `[interpOne, interpTwo]` (length 2)
with `interpOne` tried first. -/
theorem c2_attach_drops_previous_interpreter :
    FrameManager.attach (FrameManager.attach [] interpOne) interpTwo = [interpTwo] ∧
    (FrameManager.attach (FrameManager.attach [] interpOne) interpTwo).length = 1 ∧
    (FrameManager.attach (FrameManager.attach [] interpOne) interpTwo).length ≠ 2 := by
  refine ⟨rfl, rfl, by decide⟩

/-- C3. Refutation at the byte stream `00 00 05` followed by five
payload bytes: the src/src/frame.cpp parser applies `ntoh` to the header
bytes starting at offset 0, so it computes `payloadLength = 0` and reads
no further bytes, while the claim (and the src/Cpp/src/frame.cpp
parser, which decodes bytes 1-2) gives `payloadLength = 5` and consumes
the whole stream. -/
theorem c3_parse_length_uses_header_byte :
    (Frame.fromController_src ([0, 0, 5] ++ [9, 9, 9, 9, 9]) idA).1.payloadLength = 0 ∧
    (Frame.fromController_src ([0, 0, 5] ++ [9, 9, 9, 9, 9]) idA).2 = [9, 9, 9, 9, 9] ∧
    (Frame.fromController_cpp ([0, 0, 5] ++ [9, 9, 9, 9, 9]) idA).1.payloadLength = 5 ∧
    (Frame.fromController_cpp ([0, 0, 5] ++ [9, 9, 9, 9, 9]) idA).2 = [] := by
  refine ⟨rfl, rfl, rfl, rfl⟩

/-- C4. Refutation for an identifier with one appended IPv4 forwarding
segment: `getTotalAdressingSize()` returns 0 (the per-segment
`addressSize(...)` value is computed and discarded), while
`buildAddressingBuffer` writes `addressingHeader_size + 4 = 5` bytes for
that segment, so the claimed sum and the claimed equality with the
serialized byte count both fail. -/
theorem c4_total_addressing_size_is_zero :
    idOneHop.getTotalAdressingSize = 0 ∧
    idOneHop.buildAddressingBuffer.length =
      addressingHeader_size + addressSize AddressType.IPV4 ∧
    idOneHop.getTotalAdressingSize ≠ idOneHop.buildAddressingBuffer.length := by
  refine ⟨rfl, rfl, by decide⟩

/-- C5. Refutation: after one `append` the claim requires
`reroutes() = 1`, but the recursion initializes its count to 0 and never
adds a node's own contribution, so it returns 0 for any chain length. -/
theorem c5_reroutes_always_zero :
    idOneHop.reroutes = 0 ∧
    idOneHop.reroutes ≠ 1 ∧
    (SyndesiID.append idOneHop [10, 0, 0, 9] AddressType.IPV4).reroutes = 0 := by
  refine ⟨rfl, by decide, rfl⟩

/-- C6 counterexample: an error frame's buffer holds
`networkHeader_size + errorCode_size = 3` bytes, not
`header_size + errorCode_size = 5` as the claim states. -/
theorem c6_error_frame_not_headersize_plus_codesize :
    (Frame.mkError idA ErrorCode.NO_INTERPETER).buffer.length ≠
      header_size + errorCode_size := by
  decide

/-- C6 as amended: constructing an error frame from (identifier, error
code) produces a buffer of exactly `networkHeader_size + errorCode_size`
(= 3 = `header_size`, the error code occupying the length field's byte
range) with the error flag set, routing set iff `reroutes() > 0`, follow
clear, the packed network header in byte 0, and the 2-byte big-endian
error code immediately after the network-header byte. -/
theorem c6_error_frame_layout (id : SyndesiID) (code : ErrorCode) :
    (Frame.mkError id code).buffer.length = networkHeader_size + errorCode_size ∧
    (Frame.mkError id code).networkHeader.error = true ∧
    (Frame.mkError id code).networkHeader.routing = decide (0 < id.reroutes) ∧
    (Frame.mkError id code).networkHeader.follow = false ∧
    (Frame.mkError id code).buffer.getD 0 0 = (Frame.mkError id code).networkHeader.value ∧
    (Frame.mkError id code).buffer.drop networkHeader_size = hton16 code.toNat :=
  ⟨rfl, rfl, rfl, rfl, rfl, rfl⟩

/-- C7. For every interpreter chain and every non-error inbound frame on
which no attached interpreter's `parseRequest` returns a non-null
payload (the empty chain included), the dispatcher hands exactly one
reply frame to the network, and that reply is the error frame carrying
the `NO_INTERPETER` code (error flag set, big-endian code bytes after
the header byte). -/
theorem c7_no_interpreter_reply (chain : List IInterpreter) (frame : Frame)
    (herr : frame.networkHeader.error = false)
    (hnone : ∀ i ∈ chain,
      i.parseRequest frame.getPayloadBuffer frame.getPayloadLength = none) :
    (FrameManager.indication chain frame).responses =
      [Frame.mkError frame.id ErrorCode.NO_INTERPETER] ∧
    (FrameManager.indication chain frame).responses.length = 1 ∧
    (Frame.mkError frame.id ErrorCode.NO_INTERPETER).networkHeader.error = true ∧
    (Frame.mkError frame.id ErrorCode.NO_INTERPETER).buffer.drop networkHeader_size =
      hton16 (ErrorCode.toNat ErrorCode.NO_INTERPETER) := by
  have h1 := indicationLoop_fst_none frame chain hnone
  refine ⟨?_, ?_, rfl, rfl⟩ <;>
    simp [FrameManager.indication, herr, h1]

/-- C7 witness: the empty-handed chain `[interpErr, interpOne]` and the
concrete request frame `frameReq`. -/
theorem c7_no_interpreter_reply_witness :
    (FrameManager.indication [interpErr, interpOne] frameReq).responses =
      [Frame.mkError frameReq.id ErrorCode.NO_INTERPETER] ∧
    (FrameManager.indication [interpErr, interpOne] frameReq).responses.length = 1 ∧
    (Frame.mkError frameReq.id ErrorCode.NO_INTERPETER).networkHeader.error = true ∧
    (Frame.mkError frameReq.id ErrorCode.NO_INTERPETER).buffer.drop networkHeader_size =
      hton16 (ErrorCode.toNat ErrorCode.NO_INTERPETER) :=
  c7_no_interpreter_reply [interpErr, interpOne] frameReq rfl
    (by
      intro i hi
      simp only [List.mem_cons, List.not_mem_nil, or_false] at hi
      rcases hi with rfl | rfl <;> rfl)

/-- C8. An error-flagged inbound frame driven through `indication` is
answered with exactly one `INVALID_PAYLOAD` error frame and no
interpreter's `parseRequest` is invoked; moreover, for every frame
whatsoever, an `ERROR`-kind interpreter is never offered the request. -/
theorem c8_error_indication_invalid_payload (chain : List IInterpreter) (frame : Frame)
    (herr : frame.networkHeader.error = true) :
    (FrameManager.indication chain frame).responses =
      [Frame.mkError frame.id ErrorCode.INVALID_PAYLOAD] ∧
    (FrameManager.indication chain frame).invoked = [] ∧
    (∀ chain2 frame2,
      InterpType.ERROR ∉ (FrameManager.indication chain2 frame2).invoked) ∧
    (Frame.mkError frame.id ErrorCode.INVALID_PAYLOAD).networkHeader.error = true ∧
    (Frame.mkError frame.id ErrorCode.INVALID_PAYLOAD).buffer.drop networkHeader_size =
      hton16 (ErrorCode.toNat ErrorCode.INVALID_PAYLOAD) := by
  refine ⟨?_, ?_, ?_, rfl, rfl⟩
  · simp [FrameManager.indication, herr]
  · simp [FrameManager.indication, herr]
  · intro chain2 frame2
    by_cases hf : frame2.networkHeader.error
    · simp [FrameManager.indication, hf]
    · simp only [FrameManager.indication, hf, if_false]
      cases hscan : (indicationLoop frame2 chain2).1 <;>
        simpa [hscan] using indicationLoop_error_not_invoked frame2 chain2

/-- C8 witness: the chain `[interpOne]` and the concrete error-flagged
frame `frameErrFlag`. -/
theorem c8_error_indication_invalid_payload_witness :
    (FrameManager.indication [interpOne] frameErrFlag).responses =
      [Frame.mkError frameErrFlag.id ErrorCode.INVALID_PAYLOAD] ∧
    (FrameManager.indication [interpOne] frameErrFlag).invoked = [] ∧
    (∀ chain2 frame2,
      InterpType.ERROR ∉ (FrameManager.indication chain2 frame2).invoked) ∧
    (Frame.mkError frameErrFlag.id ErrorCode.INVALID_PAYLOAD).networkHeader.error = true ∧
    (Frame.mkError frameErrFlag.id ErrorCode.INVALID_PAYLOAD).buffer.drop
      networkHeader_size =
      hton16 (ErrorCode.toNat ErrorCode.INVALID_PAYLOAD) :=
  c8_error_indication_invalid_payload [interpOne] frameErrFlag rfl

/-- C9. Refutation: the claim's `min(parent.length - offset, clip or
+inf)` fails on the unclipped default. A 10-byte parent's sub-view at
offset 2 with the default `clip_len = 0` has `length() = 0` under both
Buffer implementations (src/src/buffer.cpp clips unconditionally, so
clip 0 wins; src/include/buffer.h never copies the parent's `_length`
into the view), where the claim requires 8; an explicit clip behaves as
claimed under src/src/buffer.cpp, and over-long offsets yield 0. -/
theorem c9_subview_default_clip_zero :
    (Buffer.empty.allocate_cpp 10).length_cpp = 10 ∧
    ((Buffer.empty.allocate_cpp 10).subView_cpp 2 0).length_cpp = 0 ∧
    ((Buffer.empty.allocate_cpp 10).subView_cpp 2 4).length_cpp = 4 ∧
    ((Buffer.empty.allocate_cpp 10).subView_cpp 12 0).length_cpp = 0 ∧
    (Buffer.empty.allocate_h 10).length_h = 10 ∧
    ((Buffer.empty.allocate_h 10).offsetView_h 2 0).length_h = 0 := by
  decide

/-- C10. With an IP controller registered and an IPv4/IPv6 destination,
`Network::request` writes the frame to the controller with the
destination identifier's port overwritten by the settings' IP port, so
the identifier handed to the transport carries the configured port
regardless of the port parsed into the identifier. -/
theorem c10_request_overrides_port (settings : Settings) (hasIP : Bool)
    (write : SyndesiID → List Nat → Nat) (devicesList : List SyndesiID) (frame : Frame)
    (hip : hasIP = true)
    (htype : frame.id.header.address_type = AddressType.IPV4 ∨
      frame.id.header.address_type = AddressType.IPV6) :
    (Network.request settings hasIP write devicesList frame).written =
      [(frame.id.setIPPort settings.getIPPort, frame.buffer)] ∧
    ∀ p ∈ (Network.request settings hasIP write devicesList frame).written,
      p.1.port = settings.getIPPort := by
  subst hip
  rcases htype with h | h <;>
  · constructor
    · simp [Network.request, h]
    · intro p hp
      simp [Network.request, h] at hp
      subst hp
      rfl

/-- C10 witness: a frame whose identifier carries parsed port 9999 is
written with port 2608, the configured setting. -/
theorem c10_request_overrides_port_witness :
    (Network.request ⟨2608⟩ true (fun _ bytes => bytes.length) []
        (Frame.mkError idPort9999 ErrorCode.NO_ERROR)).written =
      [((Frame.mkError idPort9999 ErrorCode.NO_ERROR).id.setIPPort
          (Settings.getIPPort ⟨2608⟩),
        (Frame.mkError idPort9999 ErrorCode.NO_ERROR).buffer)] ∧
    ∀ p ∈ (Network.request ⟨2608⟩ true (fun _ bytes => bytes.length) []
        (Frame.mkError idPort9999 ErrorCode.NO_ERROR)).written,
      p.1.port = Settings.getIPPort ⟨2608⟩ :=
  c10_request_overrides_port ⟨2608⟩ true (fun _ bytes => bytes.length) []
    (Frame.mkError idPort9999 ErrorCode.NO_ERROR) rfl (Or.inl rfl)
